import Mathlib

set_option autoImplicit false

/-
Verification of the sql30 schema-driven query builder and CRUD engine
(sql30/db.py) against its natural-language specification.

The Python code is shallowly embedded: keyword-argument mappings become
association lists in insertion order (Python dicts preserve insertion
order and have unique keys), filter values become an explicit datatype
distinguishing scalars from tuple/list ranges, fallible code returns
Except, and the sqlite engine is modelled only to the extent the
properties need (a list of table names for sqlite_master, positional
row storage for INSERT/SELECT).
-/

namespace SQL30

/-- Scalar Python values that appear in filter/update keyword mappings.
Range (tuple/list) elements are modelled as scalars. -/
inductive Scalar where
  | intV : Int → Scalar
  | strV : String → Scalar
deriving DecidableEq, Repr

/-- A value bound to a column name in a keyword mapping: either a scalar
or a tuple/list, which the code treats as a range. -/
inductive SqlVal where
  | scal : Scalar → SqlVal
  | rangeV : List Scalar → SqlVal
deriving DecidableEq, Repr

/-- Rendering of a scalar by the percent-s format operator: integers print
in decimal, strings print verbatim. -/
def pyStr : Scalar → String
  | .intV n => toString n
  | .strV s => s

/-- Rendering of a scalar inside the textual form of a Python list:
strings carry quotes there. -/
def pyReprScalar : Scalar → String
  | .intV n => toString n
  | .strV s => "\x27" ++ s ++ "\x27"

/-- Rendering of an arbitrary value by the percent-s format operator. -/
def pyStrVal : SqlVal → String
  | .scal s => pyStr s
  | .rangeV l => "[" ++ String.intercalate ", " (l.map pyReprScalar) ++ "]"

/-- A Python keyword mapping in insertion order. -/
abbrev Kwargs := List (String × SqlVal)

instance exceptDecEq {ε α : Type} [DecidableEq ε] [DecidableEq α] :
    DecidableEq (Except ε α) := fun x y =>
  match x, y with
  | .ok a, .ok b =>
      if h : a = b then isTrue (by rw [h])
      else isFalse (by intro hh; injection hh; contradiction)
  | .error a, .error b =>
      if h : a = b then isTrue (by rw [h])
      else isFalse (by intro hh; injection hh; contradiction)
  | .ok _, .error _ => isFalse (fun hh => Except.noConfusion hh)
  | .error _, .ok _ => isFalse (fun hh => Except.noConfusion hh)

/-- Source is_range in Model.__form_constraints: any tuple or list counts
as a range, regardless of its length. -/
def is_range : SqlVal → Bool
  | .rangeV _ => true
  | .scal _ => false

/-- One clause of Model.__form_constraints: a range value interpolates its
first two elements as text into a BETWEEN clause (indexing raises when the
list has fewer than two elements); any other value becomes a named-parameter
equality clause. -/
def cparamOf (key : String) : SqlVal → Except String String
  | .rangeV l =>
    match l.get? 0, l.get? 1 with
    | some v0, some v1 =>
        .ok (key ++ " BETWEEN " ++ pyStr v0 ++ " AND " ++ pyStr v1)
    | _, _ => .error "IndexError: list index out of range"
  | .scal _ => .ok (key ++ "=:" ++ key)

/-- The clause list built by the loop of Model.__form_constraints, in
mapping order; the first failing entry aborts, as in Python. -/
def clausesOf : Kwargs → Except String (List String)
  | [] => .ok []
  | (k, v) :: rest => do
    let c ← cparamOf k v
    let cs ← clausesOf rest
    return c :: cs

/-- Python string join: the separator goes between consecutive elements,
the empty list joins to the empty string. -/
def joinClauses (sep : String) : List String → String
  | [] => ""
  | [c] => c
  | c :: rest => c ++ sep ++ joinClauses sep rest

/-- Source Model.__form_constraints: clauses joined by the separator
surrounded with single spaces. -/
def formConstraintsCore (sep : String) (kwargs : Kwargs) : Except String String := do
  let cs ← clausesOf kwargs
  return joinClauses (" " ++ sep ++ " ") cs

/-- Source Model._form_constraints: empty mapping gives the empty string
(no WHERE keyword at all); otherwise the WHERE keyword precedes the
joined clauses. -/
def form_constraints (sep : String) (kwargs : Kwargs) : Except String String :=
  if kwargs.isEmpty then .ok ""
  else do
    let c ← formConstraintsCore sep kwargs
    return "WHERE " ++ c

/-- Python dict pop of one key: its value (if present) and the mapping
without that key. -/
def popKey (k : String) (kwargs : Kwargs) : Option SqlVal × Kwargs :=
  (kwargs.lookup k, kwargs.filter (fun p => !(p.1 == k)))

/-- Python dict update, d.update(u): keys already in d keep their position
but take the value from u; keys only in u are appended in order. -/
def dictUpdate (d u : Kwargs) : Kwargs :=
  (d.map fun p =>
    match u.lookup p.1 with
    | some v => (p.1, v)
    | none => p)
  ++ u.filter (fun q => (d.lookup q.1).isNone)

/-- Source Model.read up to statement execution: pops LIMIT and OFFSET,
builds the WHERE text, interpolates LIMIT/OFFSET values as text, and
passes the remaining keyword mapping as the bound parameters. A missing
table is the assertion failure of the source. -/
def readStmt (tbl : Option String) (kwargs : Kwargs) : Except String (String × Kwargs) :=
  match tbl with
  | none => .error "No table set for operation"
  | some t => do
    let (lim, kwargs1) := popKey "LIMIT" kwargs
    let (off, kwargs2) := popKey "OFFSET" kwargs1
    let constraints ← form_constraints "and" kwargs2
    let query := "SELECT * FROM " ++ t ++ " " ++ constraints
    let query := match lim with
      | some v => query ++ " LIMIT " ++ pyStrVal v ++ " "
      | none => query
    let query := match off with
      | some v => query ++ " OFFSET " ++ pyStrVal v ++ " "
      | none => query
    return (query, kwargs2)

/-- Source Model.update up to statement execution: asserts a table and a
non-empty condition, builds the SET text with the comma separator and the
WHERE text from the condition, and binds the keyword mapping overwritten
by the condition as the single parameter mapping. -/
def updateStmt (tbl : Option String) (condition : Kwargs) (kwargs : Kwargs) :
    Except String (String × Kwargs) :=
  match tbl with
  | none => .error "No table set for operation"
  | some t =>
    if condition.isEmpty then
      .error "With no/empty condition, WHERE clause cannot be set for UPDATE"
    else do
      let values ← formConstraintsCore "," kwargs
      let cond ← form_constraints "and" condition
      return ("UPDATE " ++ t ++ " SET " ++ values ++ " " ++ cond, dictUpdate kwargs condition)

/-- Source Model.delete up to statement execution. -/
def deleteStmt (tbl : Option String) (kwargs : Kwargs) : Except String (String × Kwargs) :=
  match tbl with
  | none => .error "No table set for operation"
  | some t => do
    let constraints ← form_constraints "and" kwargs
    return ("DELETE FROM " ++ t ++ " " ++ constraints, kwargs)

/-- The aggregate query text of Model._misc. -/
def miscQuery (method field t constraints : String) : String :=
  "SELECT " ++ method ++ "(" ++ field ++ ") FROM " ++ t ++ " " ++ constraints

/-- Source Model._misc. The engine is split as in the source: executing the
query sits outside the try block, so an execution failure propagates; the
try block covers only fetching the row and indexing into it, so a missing
or empty row yields Python None (here, Option.none). -/
def miscOp (engineExec : String → Kwargs → Except String Unit)
    (engineFetch : Option (List SqlVal))
    (method field : String) (tbl : Option String) (kwargs : Kwargs) :
    Except String (Option SqlVal) :=
  match tbl with
  | none => .error "No table set for operation"
  | some t =>
    match form_constraints "and" kwargs with
    | .error e => .error e
    | .ok constraints =>
      match engineExec (miscQuery method field t constraints) kwargs with
      | .error e => .error e
      | .ok _ => .ok (engineFetch.bind List.head?)

/-- Value assembly of Model.create: one value per field of the column
order, a missing field defaulting to the empty string. -/
def create_values (fields : List String) (kwargs : Kwargs) : List SqlVal :=
  fields.map (fun field => (kwargs.lookup field).getD (.scal (.strV "")))

/-- One table of stored rows, as the engine keeps them. -/
structure TableState where
  col_order : List String
  rows : List (List SqlVal)
deriving DecidableEq, Repr

/-- Effect of the INSERT of Model.create on the engine: the positional
placeholders bind the assembled values in column order, appending them as
one row. -/
def createRow (t : TableState) (kwargs : Kwargs) : TableState :=
  { t with rows := t.rows ++ [create_values t.col_order kwargs] }

/-- A SELECT star with no constraints returns the stored rows. -/
def readAllRows (t : TableState) : List (List SqlVal) := t.rows

/-- A declared table schema: name, ordered field-to-type mapping, optional
primary key, and the cached column order once computed. -/
structure TableSchema where
  name : String
  fields : List (String × String)
  primary_key : Option String
  col_order : Option (List String)
deriving DecidableEq, Repr

/-- Source Model._add_col_order: no change when the column order is already
cached, otherwise the field declaration order. -/
def addColOrder (s : TableSchema) : TableSchema :=
  match s.col_order with
  | some _ => s
  | none => { s with col_order := some (s.fields.map Prod.fst) }

/-- Column order of a schema after Model._add_col_order has run. -/
def colOrderOf (s : TableSchema) : List String :=
  (addColOrder s).col_order.getD []

/-- The column-definition loop of Model.create_table: one definition per
column-order name, with its declared type and the PRIMARY KEY suffix on
the declared primary-key column; a name absent from the field mapping is
the KeyError of the source. -/
def colDefsOf (fields : List (String × String)) (pk : Option String) :
    List String → Except String (List String)
  | [] => .ok []
  | cname :: rest =>
    match fields.lookup cname with
    | none => .error "KeyError"
    | some ctype => do
      let cs ← colDefsOf fields pk rest
      return (cname ++ " " ++ ctype ++
        (if pk = some cname then " PRIMARY KEY" else "")) :: cs

/-- The CREATE TABLE text of Model.create_table. -/
def createTableSQL (s : TableSchema) : Except String String := do
  let cols ← colDefsOf s.fields s.primary_key (colOrderOf s)
  return "CREATE TABLE " ++ s.name ++ " (" ++ String.intercalate "," cols ++ ")"

/-- The sqlite_master catalog, as far as the code consults it: the names
of the existing tables. -/
structure DBState where
  tables : List String
deriving DecidableEq, Repr

/-- Source Model.table_exists: the catalog query filtered by name returns
at least one row. -/
def table_exists (st : DBState) (n : String) : Bool :=
  decide (n ∈ st.tables)

/-- Source Model.create_table: computes the column order, returns without
executing anything when the table already exists, and otherwise executes
the CREATE TABLE statement, which registers the table in the catalog.
The executed statements are returned alongside the new catalog state. -/
def create_table (st : DBState) (schema : TableSchema) : Except String (DBState × List String) :=
  let s := addColOrder schema
  if table_exists st s.name then .ok (st, [])
  else do
    let cmnd ← createTableSQL s
    return ({ tables := st.tables ++ [s.name] }, [cmnd])

/-- The connection state of a handle: ambient connection and cursor, and
the scoped (context-manager) connection and cursor, each possibly absent.
Connections and cursors are identifiers. -/
structure Handle where
  conn : Option Nat
  cursor : Option Nat
  context_conn : Option Nat
  context_cursor : Option Nat
deriving DecidableEq, Repr

/-- Source Model.connection property: the scoped connection when present,
else the ambient one, else nothing. -/
def connection (h : Handle) : Option Nat :=
  match h.context_conn with
  | some c => some c
  | none => h.conn

/-- Source Model.cursor property: the scoped cursor when a scoped
connection is present, else the ambient cursor. -/
def cursorOf (h : Handle) : Option Nat :=
  if h.context_conn.isSome then h.context_cursor else h.cursor

/-- The failure kinds that connection-lifecycle operations can raise.
The attributeNone constructor is the AttributeError Python raises when an
attribute of None is accessed; notConnected is the explicit error kind the
specification posits, which lets the development state whether the code
ever produces it. -/
inductive PyError where
  | attributeNone : String → PyError
  | assertionFail : String → PyError
  | notConnected : PyError
deriving DecidableEq, Repr

/-- Effects issued to the engine by lifecycle and CRUD operations. -/
inductive Action where
  | commitA : Nat → Action
  | closeA : Nat → Action
  | execA : Nat → String → Action
deriving DecidableEq, Repr

/-- Source Model.commit: a commit on the current connection; on an absent
connection, Python dereferences None. -/
def commitOp (h : Handle) : Except PyError Action :=
  match connection h with
  | none => .error (.attributeNone "commit")
  | some c => .ok (.commitA c)

/-- Source Model.close: optional commit first, then the ambient state is
cleared when the current connection is the ambient one, then the cached
connection is closed; closing an absent connection dereferences None. -/
def closeOp (h : Handle) (commit : Bool) : Except PyError (List Action × Handle) :=
  match (if commit then (commitOp h).map (fun a => [a]) else .ok []) with
  | .error e => .error e
  | .ok acts =>
    let conn := connection h
    let h1 := if conn = h.conn then { h with conn := none, cursor := none } else h
    match conn with
    | none => .error (.attributeNone "close")
    | some c => .ok (acts ++ [.closeA c], h1)

/-- A cursor execute call, as used by the CRUD operations; on an absent
cursor, Python dereferences None. -/
def executeOp (h : Handle) (query : String) (_params : Kwargs) : Except PyError Action :=
  match cursorOf h with
  | none => .error (.attributeNone "execute")
  | some cu => .ok (.execA cu query)

/-- Source Model.__enter__ as a state transformer: the leading assertion
fails when a scoped connection is already present, leaving the handle
untouched; otherwise a fresh connection and its cursor become the scoped
pair. -/
def enterSt (h : Handle) (fresh : Nat) : Except PyError Unit × Handle :=
  if h.context_conn.isSome then
    (.error (.assertionFail "nested context not allowed"), h)
  else
    (.ok (), { h with context_conn := some fresh, context_cursor := some fresh })

/-- Source Model.__exit__, invoked by the with statement on every exit
path with whatever exception is propagating: when a scoped connection is
present it is committed, then closed, then the scoped state is cleared;
the exception argument is never consulted. -/
def exitCtx (_excInfo : Option String) (h : Handle) : List Action × Handle :=
  match h.context_conn with
  | some c =>
      ([.commitA c, .closeA c], { h with context_conn := none, context_cursor := none })
  | none => ([], h)

/-- A handle with no connection at all: fresh with INIT_CONNECTION off, or
after close has cleared the ambient state. -/
def unconnected : Handle :=
  { conn := none, cursor := none, context_conn := none, context_cursor := none }

/-- Executed statements of a fallible statement builder: an error raises
before anything reaches the engine. -/
def executedOf {α : Type} (r : Except String α) : List α :=
  match r with
  | .error _ => []
  | .ok s => [s]

end SQL30

namespace SQL30

/- Theorems. Shared helper lemmas come first; the claim theorems follow,
one per claim, with counterexample and witness theorems alongside. -/

theorem clausesOf_length : ∀ (kwargs : Kwargs) (cs : List String),
    clausesOf kwargs = .ok cs → cs.length = kwargs.length := by
  intro kwargs
  induction kwargs with
  | nil => intro cs h; simp only [clausesOf] at h; cases h; rfl
  | cons p rest ih =>
    intro cs h
    obtain ⟨k, v⟩ := p
    simp only [clausesOf] at h
    cases hc : cparamOf k v with
    | error e => rw [hc] at h; exact Except.noConfusion h
    | ok c =>
      rw [hc] at h
      cases hcs : clausesOf rest with
      | error e =>
        rw [hcs] at h
        exact Except.noConfusion h
      | ok cs0 =>
        rw [hcs] at h
        simp only [Except.bind, pure, Except.pure] at h
        cases h
        simp [ih cs0 hcs]

/-- Claim C1, counterexample: the claim says a value that is not a
2-element tuple/list compiles to the named-parameter equality clause, but
the code classifies every tuple/list as a range, so a 3-element list
compiles to a BETWEEN clause over its first two elements. -/
theorem claim_C1_counterexample :
    formConstraintsCore "and" [("c", .rangeV [.intV 1, .intV 2, .intV 3])]
        = .ok "c BETWEEN 1 AND 2"
    ∧ formConstraintsCore "and" [("c", .rangeV [.intV 1, .intV 2, .intV 3])]
        ≠ .ok "c=:c" :=
  ⟨by decide, by decide⟩

/-- Claim C1 (amended): the constraint builder emits exactly one clause
per entry; a tuple/list value with at least two elements yields a BETWEEN
clause over its first two elements; a scalar value yields the
named-parameter equality clause; consecutive clauses are joined with the
separator surrounded by spaces; and the empty mapping yields the empty
string, so no bare WHERE keyword is ever produced. -/
theorem claim_C1_theorem :
    (∀ (kwargs : Kwargs) (cs : List String),
        clausesOf kwargs = .ok cs → cs.length = kwargs.length)
    ∧ (∀ (k : String) (v0 v1 : Scalar) (rest : List Scalar),
        cparamOf k (.rangeV (v0 :: v1 :: rest)) =
          .ok (k ++ " BETWEEN " ++ pyStr v0 ++ " AND " ++ pyStr v1))
    ∧ (∀ (k : String) (s : Scalar), cparamOf k (.scal s) = .ok (k ++ "=:" ++ k))
    ∧ (∀ (sep c : String) (cs : List String), cs ≠ [] →
        joinClauses sep (c :: cs) = c ++ sep ++ joinClauses sep cs)
    ∧ (∀ (sep : String),
        form_constraints sep [] = .ok "" ∧ formConstraintsCore sep [] = .ok "") := by
  refine ⟨clausesOf_length, ?_, ?_, ?_, ?_⟩
  · intro k v0 v1 rest; rfl
  · intro k s; rfl
  · intro sep c cs h
    cases cs with
    | nil => exact absurd rfl h
    | cons c2 rest => rfl
  · intro sep; exact ⟨rfl, rfl⟩

/-- Claim C2, counterexample: the claim says the two bounds of a range
filter are bound as statement parameters; but for the range filter on sq
the generated SELECT embeds the bounds 4 and 9 as text and contains no
parameter placeholder at all (no colon occurs in the statement), while
the unused range value is still passed in the parameter mapping. -/
theorem claim_C2_counterexample :
    readStmt (some "square") [("sq", .rangeV [.intV 4, .intV 9])]
        = .ok ("SELECT * FROM square WHERE sq BETWEEN 4 AND 9",
            [("sq", .rangeV [.intV 4, .intV 9])])
    ∧ (("SELECT * FROM square WHERE sq BETWEEN 4 AND 9").toList.all
        (fun ch => ch != ':')) = true :=
  ⟨by decide, by decide⟩

/-- Claim C2 (amended): in the generated statements, a scalar filter
value compiles to an equality clause bound by a named parameter, but the
two bounds of a range filter are rendered into the SQL text itself; the
WHERE fragment shared by read, update, delete and the aggregates embeds
the bounds as text. -/
theorem claim_C2_theorem :
    (∀ (tbl k : String) (a b : Scalar) (rest : List Scalar),
        k ≠ "LIMIT" → k ≠ "OFFSET" →
        readStmt (some tbl) [(k, .rangeV (a :: b :: rest))] =
          .ok ("SELECT * FROM " ++ tbl ++ " " ++
                ("WHERE " ++ (k ++ " BETWEEN " ++ pyStr a ++ " AND " ++ pyStr b)),
              [(k, .rangeV (a :: b :: rest))]))
    ∧ (∀ (tbl k : String) (s : Scalar),
        k ≠ "LIMIT" → k ≠ "OFFSET" →
        readStmt (some tbl) [(k, .scal s)] =
          .ok ("SELECT * FROM " ++ tbl ++ " " ++ ("WHERE " ++ (k ++ "=:" ++ k)),
              [(k, .scal s)]))
    ∧ (∀ (k : String) (a b : Scalar) (rest : List Scalar),
        form_constraints "and" [(k, .rangeV (a :: b :: rest))] =
          .ok ("WHERE " ++ (k ++ " BETWEEN " ++ pyStr a ++ " AND " ++ pyStr b)))
    ∧ (∀ (tbl k : String) (a b : Scalar) (rest : List Scalar),
        deleteStmt (some tbl) [(k, .rangeV (a :: b :: rest))] =
          .ok ("DELETE FROM " ++ tbl ++ " " ++
                ("WHERE " ++ (k ++ " BETWEEN " ++ pyStr a ++ " AND " ++ pyStr b)),
              [(k, .rangeV (a :: b :: rest))])) := by
  refine ⟨?_, ?_, ?_, ?_⟩
  · intro tbl k a b rest h1 h2
    have hb1 : (k == "LIMIT") = false := by simp [h1]
    have hb2 : (k == "OFFSET") = false := by simp [h2]
    have hc1 : ("LIMIT" == k) = false := by simp [Ne.symm h1]
    have hc2 : ("OFFSET" == k) = false := by simp [Ne.symm h2]
    simp [readStmt, popKey, List.lookup, hb1, hb2, hc1, hc2, form_constraints,
      formConstraintsCore, clausesOf, cparamOf, joinClauses, Except.bind, pure, Except.pure]
    rfl
  · intro tbl k s h1 h2
    have hb1 : (k == "LIMIT") = false := by simp [h1]
    have hb2 : (k == "OFFSET") = false := by simp [h2]
    have hc1 : ("LIMIT" == k) = false := by simp [Ne.symm h1]
    have hc2 : ("OFFSET" == k) = false := by simp [Ne.symm h2]
    simp [readStmt, popKey, List.lookup, hb1, hb2, hc1, hc2, form_constraints,
      formConstraintsCore, clausesOf, cparamOf, joinClauses, Except.bind, pure, Except.pure]
    rfl
  · intro k a b rest; rfl
  · intro tbl k a b rest; rfl

/-- Claim C2 witness: the amended theorem applied at concrete inputs. -/
theorem claim_C2_witness :
    readStmt (some "square") [("sq", SqlVal.rangeV [.intV 4, .intV 9])] =
      .ok ("SELECT * FROM " ++ "square" ++ " " ++
            ("WHERE " ++ ("sq" ++ " BETWEEN " ++ pyStr (.intV 4) ++ " AND " ++ pyStr (.intV 9))),
          [("sq", SqlVal.rangeV [.intV 4, .intV 9])])
    ∧ readStmt (some "square") [("sq", SqlVal.scal (.intV 3))] =
      .ok ("SELECT * FROM " ++ "square" ++ " " ++ ("WHERE " ++ ("sq" ++ "=:" ++ "sq")),
          [("sq", SqlVal.scal (.intV 3))]) :=
  ⟨claim_C2_theorem.1 "square" "sq" (.intV 4) (.intV 9) [] (by decide) (by decide),
   claim_C2_theorem.2.1 "square" "sq" (.intV 3) (by decide) (by decide)⟩

/-- Claim C3: the inserted row has one value per declared field, the value
at every position is the keyword value for the field at that position of
the column order, with the empty string (never an absent value) for a
missing field; concretely, for the fields rid, header, rating, desc,
creating with rid 1, header h, rating 5 and then reading back returns the
single row (1, h, 5, empty string). -/
theorem claim_C3_theorem :
    (∀ (fields : List String) (kwargs : Kwargs),
        (create_values fields kwargs).length = fields.length)
    ∧ (∀ (fields : List String) (kwargs : Kwargs) (i : Nat),
        (create_values fields kwargs)[i]? =
          (fields[i]?).map (fun f => (kwargs.lookup f).getD (.scal (.strV ""))))
    ∧ readAllRows (createRow ⟨["rid", "header", "rating", "desc"], []⟩
        [("rid", .scal (.intV 1)), ("header", .scal (.strV "h")),
         ("rating", .scal (.intV 5))])
      = [[.scal (.intV 1), .scal (.strV "h"), .scal (.intV 5), .scal (.strV "")]] := by
  refine ⟨?_, ?_, by decide⟩
  · intro fields kwargs; simp [create_values]
  · intro fields kwargs i; simp [create_values]

/-- Claim C4: an update with an empty condition fails the assertion for
every table argument and every value mapping; the failure precedes
statement construction, so nothing is executed, and folding the executed
statements over any engine state leaves it unchanged. -/
theorem claim_C4_theorem :
    (∀ (tbl : Option String) (kwargs : Kwargs),
        updateStmt tbl [] kwargs =
          .error (match tbl with
            | none => "No table set for operation"
            | some _ => "With no/empty condition, WHERE clause cannot be set for UPDATE"))
    ∧ (∀ (tbl : Option String) (kwargs : Kwargs),
        executedOf (updateStmt tbl [] kwargs) = [])
    ∧ (∀ (α : Type) (step : α → String × Kwargs → α) (st : α)
        (tbl : Option String) (kwargs : Kwargs),
        (executedOf (updateStmt tbl [] kwargs)).foldl step st = st) := by
  have herr : ∀ (tbl : Option String) (kwargs : Kwargs),
      updateStmt tbl [] kwargs =
        .error (match tbl with
          | none => "No table set for operation"
          | some _ => "With no/empty condition, WHERE clause cannot be set for UPDATE") := by
    intro tbl kwargs
    cases tbl <;> rfl
  refine ⟨herr, ?_, ?_⟩
  · intro tbl kwargs; rw [herr]; rfl
  · intro α step st tbl kwargs; rw [herr]; rfl

/-- Claim C5: entering a scoped context while a scoped connection is
already active fails the leading assertion and returns the handle
unchanged, so the active scoped connection is neither reused nor replaced
by the freshly available one. -/
theorem claim_C5_theorem (h : Handle) (fresh c : Nat)
    (hc : h.context_conn = some c) :
    enterSt h fresh = (.error (.assertionFail "nested context not allowed"), h) := by
  simp [enterSt, hc]

/-- Claim C5 witness: a handle with scoped connection 7 rejects a second
scoped acquisition of fresh connection 9. -/
theorem claim_C5_witness :
    enterSt ⟨some 1, some 1, some 7, some 7⟩ 9
      = (.error (.assertionFail "nested context not allowed"),
          ⟨some 1, some 1, some 7, some 7⟩) :=
  claim_C5_theorem ⟨some 1, some 1, some 7, some 7⟩ 9 7 rfl

/-- Claim C6: on every exit of a scoped context, whatever exception is
propagating from the block, the scoped connection is committed first,
then closed, and the scoped connection and cursor are cleared. -/
theorem claim_C6_theorem (excInfo : Option String) (h : Handle) (c : Nat)
    (hc : h.context_conn = some c) :
    exitCtx excInfo h = ([.commitA c, .closeA c],
      { h with context_conn := none, context_cursor := none }) := by
  simp [exitCtx, hc]

/-- Claim C6 witness: exit under a propagating exception commits then
closes scoped connection 7 and clears the scoped state. -/
theorem claim_C6_witness :
    exitCtx (some "ValueError") ⟨some 1, some 1, some 7, some 7⟩
      = ([.commitA 7, .closeA 7], ⟨some 1, some 1, none, none⟩) :=
  claim_C6_theorem (some "ValueError") ⟨some 1, some 1, some 7, some 7⟩ 7 rfl

/-- Claim C7, counterexample: the claim says any failure of the aggregate
query yields None; but the execute call sits outside the try block, so an
execution failure propagates to the caller instead of becoming None. -/
theorem claim_C7_counterexample :
    miscOp (fun _ _ => .error "OperationalError: no such table") none "COUNT" "*"
        (some "square") [] = .error "OperationalError: no such table"
    ∧ miscOp (fun _ _ => .error "OperationalError: no such table") none "COUNT" "*"
        (some "square") [] ≠ .ok none :=
  ⟨rfl, by decide⟩

/-- Claim C7 (amended): only failures in fetching or extracting the
aggregate result are swallowed into None; a failure raised while
executing the aggregate query propagates unchanged. -/
theorem claim_C7_theorem (ex : String → Kwargs → Except String Unit)
    (fetch : Option (List SqlVal)) (m f t : String) (kw : Kwargs) (c : String)
    (hc : form_constraints "and" kw = .ok c) :
    (∀ e, ex (miscQuery m f t c) kw = .error e →
        miscOp ex fetch m f (some t) kw = .error e)
    ∧ (ex (miscQuery m f t c) kw = .ok () →
        miscOp ex fetch m f (some t) kw = .ok (fetch.bind List.head?)) := by
  constructor
  · intro e he; simp [miscOp, hc, he]
  · intro hok; simp [miscOp, hc, hok]

/-- Claim C7 witness: with an engine whose execution succeeds and returns
the row with value 3, the aggregate returns that value. -/
theorem claim_C7_witness :
    miscOp (fun _ _ => .ok ()) (some [SqlVal.scal (.intV 3)]) "COUNT" "*" (some "square") []
      = .ok ((some [SqlVal.scal (.intV 3)]).bind List.head?) :=
  (claim_C7_theorem (fun _ _ => .ok ()) (some [SqlVal.scal (.intV 3)])
    "COUNT" "*" "square" [] "" rfl).2 rfl

/-- Claim C8, counterexample: with no connection at all, commit and the
cursor execute of the CRUD operations fail by dereferencing the absent
(None) connection object, not with the NotConnected error the claim
posits. -/
theorem claim_C8_counterexample :
    commitOp unconnected = .error (.attributeNone "commit")
    ∧ commitOp unconnected ≠ .error .notConnected
    ∧ executeOp unconnected "SELECT * FROM square " [] = .error (.attributeNone "execute")
    ∧ executeOp unconnected "SELECT * FROM square " [] ≠ .error .notConnected :=
  ⟨rfl, by decide, rfl, by decide⟩

/-- Claim C8 (amended): when neither a scoped nor an ambient connection is
present, commit, close and cursor execution each fail with the
AttributeError of dereferencing None; no NotConnected error exists in the
code. -/
theorem claim_C8_theorem (h : Handle) (q : String) (kw : Kwargs)
    (h1 : h.conn = none) (h2 : h.context_conn = none) (h3 : h.cursor = none) :
    commitOp h = .error (.attributeNone "commit")
    ∧ executeOp h q kw = .error (.attributeNone "execute")
    ∧ closeOp h true = .error (.attributeNone "commit")
    ∧ closeOp h false = .error (.attributeNone "close") := by
  have hco : connection h = none := by simp [connection, h1, h2]
  refine ⟨?_, ?_, ?_, ?_⟩
  · simp [commitOp, hco]
  · simp [executeOp, cursorOf, h2, h3]
  · simp [closeOp, commitOp, hco, Except.map]
  · simp [closeOp, hco]

/-- Claim C8 witness: the amended theorem applied to the fully
disconnected handle. -/
theorem claim_C8_witness :
    commitOp unconnected = .error (.attributeNone "commit")
    ∧ executeOp unconnected "SELECT 1 " [] = .error (.attributeNone "execute")
    ∧ closeOp unconnected true = .error (.attributeNone "commit")
    ∧ closeOp unconnected false = .error (.attributeNone "close") :=
  claim_C8_theorem unconnected "SELECT 1 " [] rfl rfl rfl

theorem lookup_isSome_of_mem_keys :
    ∀ (fields : List (String × String)) (c : String),
      c ∈ fields.map Prod.fst → (fields.lookup c).isSome := by
  intro fields
  induction fields with
  | nil => intro c hc; simp at hc
  | cons p rest ih =>
    intro c hc
    obtain ⟨k, t⟩ := p
    by_cases hk : c = k
    · subst hk; simp [List.lookup_cons_self]
    · have hbeq : (c == k) = false := by simp [hk]
      rw [List.lookup_cons, hbeq]
      apply ih
      simp only [List.map_cons, List.mem_cons] at hc
      exact hc.resolve_left hk

theorem colDefsOf_ok_of_known :
    ∀ (fields : List (String × String)) (pk : Option String) (l : List String),
      (∀ c ∈ l, (fields.lookup c).isSome) →
      ∃ cols, colDefsOf fields pk l = .ok cols := by
  intro fields pk l
  induction l with
  | nil => intro _; exact ⟨[], rfl⟩
  | cons c rest ih =>
    intro hall
    obtain ⟨cols, hcols⟩ := ih (fun x hx => hall x (List.mem_cons_of_mem c hx))
    have hc := hall c (List.mem_cons_self c rest)
    cases hl : fields.lookup c with
    | none => rw [hl] at hc; simp at hc
    | some ctype =>
      refine ⟨(c ++ " " ++ ctype ++
        (if pk = some c then " PRIMARY KEY" else "")) :: cols, ?_⟩
      simp only [colDefsOf]
      rw [hl, hcols]
      rfl

/-- Claim C9: create_table is idempotent and never errors. For a schema in
the declared format (no preset column order) the call always succeeds;
and when the table was not yet present, a successful first call registers
it, after which a second call with the same schema succeeds, executes no
statement, and exactly one table of that name exists. -/
theorem claim_C9_theorem :
    (∀ (st : DBState) (s : TableSchema), s.col_order = none →
        ∃ r, create_table st s = .ok r)
    ∧ (∀ (st : DBState) (schema : TableSchema) (st1 : DBState) (stmts : List String),
        st.tables.count schema.name = 0 →
        create_table st schema = .ok (st1, stmts) →
        create_table st1 schema = .ok (st1, [])
        ∧ st1.tables.count schema.name = 1) := by
  constructor
  · intro st s hco
    by_cases hex : table_exists st (addColOrder s).name
    · exact ⟨(st, []), by simp [create_table, hex]⟩
    · have hcol : colOrderOf s = s.fields.map Prod.fst := by
        simp [colOrderOf, addColOrder, hco]
      have hfields : (addColOrder s).fields = s.fields := by
        simp [addColOrder, hco]
      have hpk : (addColOrder s).primary_key = s.primary_key := by
        simp [addColOrder, hco]
      have hcolA : colOrderOf (addColOrder s) = colOrderOf s := by
        simp [colOrderOf, addColOrder, hco]
      obtain ⟨cols, hcols⟩ := colDefsOf_ok_of_known s.fields s.primary_key
        (colOrderOf s) (by rw [hcol]; exact fun c hc => lookup_isSome_of_mem_keys s.fields c hc)
      refine ⟨({ tables := st.tables ++ [(addColOrder s).name] },
        ["CREATE TABLE " ++ (addColOrder s).name ++ " (" ++ String.intercalate "," cols ++ ")"]), ?_⟩
      simp only [create_table, hex, if_false, Bool.false_eq_true]
      have hsql : createTableSQL (addColOrder s) =
          .ok ("CREATE TABLE " ++ (addColOrder s).name ++ " (" ++
            String.intercalate "," cols ++ ")") := by
        simp only [createTableSQL, hfields, hpk, hcolA]
        rw [hcols]
        rfl
      rw [hsql]
      rfl
  · intro st schema st1 stmts h0 h1
    have hname : (addColOrder schema).name = schema.name := by
      cases hs : schema.col_order <;> simp [addColOrder, hs]
    have hnotmem : schema.name ∉ st.tables := List.count_eq_zero.mp h0
    have hex : table_exists st (addColOrder schema).name = false := by
      simp [table_exists, hname, hnotmem]
    simp only [create_table, hex, if_false, Bool.false_eq_true] at h1
    cases hsql : createTableSQL (addColOrder schema) with
    | error e =>
      rw [hsql] at h1
      exact Except.noConfusion h1
    | ok cmnd =>
      rw [hsql] at h1
      have h2 : Except.ok (({ tables := st.tables ++ [(addColOrder schema).name] } : DBState),
          [cmnd]) = Except.ok (st1, stmts) := h1
      injection h2 with hpair
      injection hpair with hst hstm
      subst hst
      subst hstm
      constructor
      · simp [create_table, table_exists, hname]
      · simp [List.count_append, h0, hname, List.count_singleton_self]

/-- Claim C9 witness: creating the square table twice on an empty catalog
registers it once. -/
theorem claim_C9_witness :
    create_table { tables := ["square"] }
        { name := "square", fields := [("num", "int"), ("sq", "int")],
          primary_key := some "num", col_order := none }
      = .ok ({ tables := ["square"] }, [])
    ∧ ({ tables := ["square"] } : DBState).tables.count "square" = 1 :=
  claim_C9_theorem.2 { tables := [] }
    { name := "square", fields := [("num", "int"), ("sq", "int")],
      primary_key := some "num", col_order := none }
    { tables := ["square"] }
    ["CREATE TABLE square (num int PRIMARY KEY,sq int)"]
    (by decide) (by decide)

theorem lookup_mapUpd_isSome (u : Kwargs) :
    ∀ (d : Kwargs) (k : String) (v : SqlVal),
      u.lookup k = some v → (d.lookup k).isSome →
      ((d.map fun p => match u.lookup p.1 with
        | some w => (p.1, w)
        | none => p).lookup k) = some v := by
  intro d
  induction d with
  | nil => intro k v hu hd; simp [List.lookup] at hd
  | cons p rest ih =>
    intro k v hu hd
    obtain ⟨k1, v1⟩ := p
    by_cases hk : k = k1
    · subst hk
      simp only [List.map_cons, hu, List.lookup_cons_self]
    · have hbeq : (k == k1) = false := by simp [hk]
      rw [List.lookup_cons, hbeq] at hd
      cases hu1 : u.lookup k1 <;>
        simp only [List.map_cons, hu1, List.lookup_cons, hbeq] <;>
        exact ih k v hu hd

theorem lookup_mapUpd_none (u : Kwargs) :
    ∀ (d : Kwargs) (k : String),
      d.lookup k = none →
      ((d.map fun p => match u.lookup p.1 with
        | some w => (p.1, w)
        | none => p).lookup k) = none := by
  intro d
  induction d with
  | nil => intro k hd; simp [List.lookup]
  | cons p rest ih =>
    intro k hd
    obtain ⟨k1, v1⟩ := p
    rw [List.lookup_cons] at hd
    cases hbeq : k == k1 with
    | true => rw [hbeq] at hd; exact Option.noConfusion hd
    | false =>
      rw [hbeq] at hd
      cases hu1 : u.lookup k1 <;>
        simp only [List.map_cons, hu1, List.lookup_cons, hbeq] <;>
        exact ih k hd

theorem lookup_filterNew (d : Kwargs) :
    ∀ (u : Kwargs) (k : String) (v : SqlVal),
      u.lookup k = some v → d.lookup k = none →
      ((u.filter fun q => (d.lookup q.1).isNone).lookup k) = some v := by
  intro u
  induction u with
  | nil => intro k v hu hd; simp [List.lookup] at hu
  | cons p rest ih =>
    intro k v hu hd
    obtain ⟨k1, v1⟩ := p
    rw [List.lookup_cons] at hu
    cases hbeq : k == k1 with
    | true =>
      rw [hbeq] at hu
      have hk : k = k1 := eq_of_beq hbeq
      subst hk
      simpa [List.filter_cons, hd] using hu
    | false =>
      rw [hbeq] at hu
      cases hp : (d.lookup k1).isNone <;>
        simp only [List.filter_cons, hp, List.lookup_cons, hbeq, if_true, if_false,
          Bool.false_eq_true] <;>
        exact ih k v hu hd

theorem lookup_append_somePart (l2 : Kwargs) :
    ∀ (l1 : Kwargs) (k : String) (v : SqlVal),
      l1.lookup k = some v → (l1 ++ l2).lookup k = some v := by
  intro l1
  induction l1 with
  | nil => intro k v h; simp [List.lookup] at h
  | cons p rest ih =>
    intro k v h
    obtain ⟨k1, v1⟩ := p
    rw [List.lookup_cons] at h
    cases hbeq : k == k1 with
    | true => rw [hbeq] at h; simpa [List.cons_append, List.lookup_cons, hbeq] using h
    | false =>
      rw [hbeq] at h
      simp only [List.cons_append, List.lookup_cons, hbeq]
      exact ih k v h

theorem lookup_append_nonePart (l2 : Kwargs) :
    ∀ (l1 : Kwargs) (k : String),
      l1.lookup k = none → (l1 ++ l2).lookup k = l2.lookup k := by
  intro l1
  induction l1 with
  | nil => intro k h; simp
  | cons p rest ih =>
    intro k h
    obtain ⟨k1, v1⟩ := p
    rw [List.lookup_cons] at h
    cases hbeq : k == k1 with
    | true => rw [hbeq] at h; exact Option.noConfusion h
    | false =>
      rw [hbeq] at h
      simp only [List.cons_append, List.lookup_cons, hbeq]
      exact ih k h

theorem lookup_dictUpdate (d u : Kwargs) (k : String) (v : SqlVal)
    (hu : u.lookup k = some v) : (dictUpdate d u).lookup k = some v := by
  unfold dictUpdate
  cases hd : d.lookup k with
  | some w =>
    exact lookup_append_somePart _ _ _ _ (lookup_mapUpd_isSome u d k v hu (by simp [hd]))
  | none =>
    rw [lookup_append_nonePart _ _ _ (lookup_mapUpd_none u d k hd)]
    exact lookup_filterNew d u k v hu hd

/-- Claim C10: when an update succeeds, the single parameter mapping it
binds is the value mapping overwritten by the condition, so a key present
in both binds the condition's value; in the one-column collision the SET
clause and the WHERE clause reference the same named parameter and the
requested new value is absent from the parameters. -/
theorem claim_C10_theorem :
    (∀ (tbl : String) (cond kwargs : Kwargs) (q : String) (p : Kwargs)
        (k : String) (v2 : SqlVal),
        updateStmt (some tbl) cond kwargs = .ok (q, p) →
        cond.lookup k = some v2 →
        p.lookup k = some v2)
    ∧ (∀ (tbl k : String) (s1 s2 : Scalar),
        updateStmt (some tbl) [(k, .scal s2)] [(k, .scal s1)] =
          .ok ("UPDATE " ++ tbl ++ " SET " ++ (k ++ "=:" ++ k) ++ " " ++
                ("WHERE " ++ (k ++ "=:" ++ k)), [(k, .scal s2)])) := by
  constructor
  · intro tbl cond kwargs q p k v2 hok hc
    have hne : cond.isEmpty = false := by
      cases cond with
      | nil => simp [List.lookup] at hc
      | cons a rest => rfl
    simp only [updateStmt, hne, Bool.false_eq_true, if_false] at hok
    cases hv : formConstraintsCore "," kwargs with
    | error e => rw [hv] at hok; exact Except.noConfusion hok
    | ok values =>
      rw [hv] at hok
      cases hcnd : form_constraints "and" cond with
      | error e => rw [hcnd] at hok; exact Except.noConfusion hok
      | ok cndStr =>
        rw [hcnd] at hok
        have h2 : Except.ok (("UPDATE " ++ tbl ++ " SET " ++ values ++ " " ++ cndStr),
            dictUpdate kwargs cond) = Except.ok (q, p) := hok
        injection h2 with hpair
        injection hpair with hq hp
        subst hp
        exact lookup_dictUpdate kwargs cond k v2 hc
  · intro tbl k s1 s2
    simp [updateStmt, formConstraintsCore, form_constraints, clausesOf, cparamOf,
      joinClauses, dictUpdate, List.lookup, Except.bind, pure, Except.pure]
    rfl

/-- Claim C10 witness: with condition num 2 and requested new value num 7,
the parameter for num is 2 and the statement reuses the one parameter for
SET and WHERE. -/
theorem claim_C10_witness :
    ([("num", SqlVal.scal (.intV 2))] : Kwargs).lookup "num"
      = some (SqlVal.scal (.intV 2)) :=
  claim_C10_theorem.1 "square" [("num", .scal (.intV 2))] [("num", .scal (.intV 7))]
    "UPDATE square SET num=:num WHERE num=:num" [("num", .scal (.intV 2))]
    "num" (.scal (.intV 2)) (by decide) (by decide)

/-- Claim C1 witness: the amended theorem applied at concrete inputs. -/
theorem claim_C1_witness :
    (["n=:n", "sq BETWEEN 4 AND 9"].length = ([("n", SqlVal.scal (.intV 2)),
        ("sq", SqlVal.rangeV [.intV 4, .intV 9])] : Kwargs).length)
    ∧ joinClauses " and " ["n=:n", "sq BETWEEN 4 AND 9"]
        = "n=:n" ++ " and " ++ joinClauses " and " ["sq BETWEEN 4 AND 9"] :=
  ⟨claim_C1_theorem.1 [("n", SqlVal.scal (.intV 2)), ("sq", SqlVal.rangeV [.intV 4, .intV 9])]
      ["n=:n", "sq BETWEEN 4 AND 9"] (by decide),
   claim_C1_theorem.2.2.2.1 " and " "n=:n" ["sq BETWEEN 4 AND 9"] (by decide)⟩

end SQL30
